import Mathlib

/-!
Shallow embedding of `src/app.js` (PresentationController), the slide
navigation state machine of the GitHubCopilot presentation repository,
together with proofs of the specification claims about it.

Modelling choices:
* JS integer-valued numbers (`currentSlide`, `totalSlides`, slide indices,
  timestamps) are `Int`; touch coordinates (`clientX`/`clientY`, doubles in
  JS) are `ℚ`.
* The JS division in `updateProgressBar` is modelled by `jsDiv`, which
  returns a `JSNum` (finite rational, `Infinity`, `-Infinity` or `NaN`)
  following IEEE-754 semantics for division by zero.
* `goToSlide` runs in three phases: a synchronous part (`goToSlideSync`,
  lines 240-266 of app.js, which already assigns `currentSlide`), a first
  `setTimeout` callback after 50ms (`goToSlideFirstTimeout`, lines 269-287,
  which performs the UI update — modelled by the emitted counter text) and a
  nested second `setTimeout` callback after 600ms (`goToSlideSecondTimeout`,
  lines 283-285, which clears `isTransitioning`).  `goToSlideSettled`
  composes the three, giving the state observed once the transition settles
  back to `Idle`.
-/

/-- The navigation state owned by `PresentationController`
(fields `currentSlide`, `totalSlides`, `isTransitioning` of the
constructor, app.js lines 4-16). -/
structure NavState where
  currentSlide : Int
  totalSlides : Int
  isTransitioning : Bool
deriving DecidableEq, Repr

/-- A slide element, exposing the data `getSlideTitle` and
`exportSlideData` read from the DOM: the text of an `h1` child (if any),
of an `h2` child (if any), and the element's `textContent`. -/
structure Slide where
  h1 : Option String
  h2 : Option String
  textContent : String
deriving DecidableEq, Repr

/-- Embedding of `constructor` + `setupElements` (app.js lines 4-16, 29-43):
`currentSlide` starts at 0, `totalSlides` is the number of discovered
`.slide` elements, no transition in progress. -/
def initState (slides : List Slide) : NavState :=
  { currentSlide := 0, totalSlides := (slides.length : Int), isTransitioning := false }

/-- The guard of `goToSlide` (app.js line 241): the call is rejected
silently when transitioning, out of range, or a self-transition. -/
def goToSlideRejects (s : NavState) (slideIndex : Int) : Prop :=
  s.isTransitioning = true ∨ slideIndex < 0 ∨ s.totalSlides ≤ slideIndex ∨
    slideIndex = s.currentSlide

instance (s : NavState) (slideIndex : Int) : Decidable (goToSlideRejects s slideIndex) := by
  unfold goToSlideRejects; infer_instance

/-- Acceptance: `goToSlide` accepts the target when the guard does not reject it. -/
def goToSlideAccepted (s : NavState) (slideIndex : Int) : Prop :=
  ¬ goToSlideRejects s slideIndex

instance (s : NavState) (slideIndex : Int) : Decidable (goToSlideAccepted s slideIndex) := by
  unfold goToSlideAccepted; infer_instance

/-- The synchronous part of `goToSlide` (app.js lines 240-266): check the
guard, set `isTransitioning = true`, and assign
`this.currentSlide = slideIndex` — this assignment happens before any
`setTimeout` callback runs. -/
def goToSlideSync (s : NavState) (slideIndex : Int) : NavState :=
  if goToSlideRejects s slideIndex then s
  else { s with isTransitioning := true, currentSlide := slideIndex }

/-- Counter text computed by `updateSlideCounter`
(app.js line 300): `"{currentSlide + 1} / {totalSlides}"`. -/
def counterText (s : NavState) : String :=
  toString (s.currentSlide + 1) ++ " / " ++ toString s.totalSlides

/-- The first `setTimeout` callback of `goToSlide` (app.js lines 269-287,
delay 50ms): slide-class cleanup and `updateUI()`.  It mutates no
navigation state; we model its observable effect by the counter text it
writes. -/
def goToSlideFirstTimeout (s : NavState) : NavState × String :=
  (s, counterText s)

/-- The nested second `setTimeout` callback (app.js lines 283-285, delay
600ms): `this.isTransitioning = false`. -/
def goToSlideSecondTimeout (s : NavState) : NavState :=
  { s with isTransitioning := false }

/-- State of `goToSlide` observed after both timer callbacks have run (the
transition has settled back to `Idle`), together with the counter text the
UI update wrote (`none` when the call was rejected and no timer was
scheduled). -/
def goToSlideSettled (s : NavState) (slideIndex : Int) : NavState × Option String :=
  if goToSlideRejects s slideIndex then (s, none)
  else
    let p := goToSlideFirstTimeout (goToSlideSync s slideIndex)
    (goToSlideSecondTimeout p.1, some p.2)

/-- Embedding of `nextSlide` (app.js lines 222-229), observed settled: no-op when
transitioning or already at the last index, else `goToSlide(currentSlide + 1)`. -/
def nextSlideSettled (s : NavState) : NavState :=
  if s.isTransitioning = true ∨ s.totalSlides - 1 ≤ s.currentSlide then s
  else (goToSlideSettled s (s.currentSlide + 1)).1

/-- Embedding of `previousSlide` (app.js lines 231-238), observed settled: no-op when
transitioning or already at index 0, else `goToSlide(currentSlide - 1)`. -/
def previousSlideSettled (s : NavState) : NavState :=
  if s.isTransitioning = true ∨ s.currentSlide ≤ 0 then s
  else (goToSlideSettled s (s.currentSlide - 1)).1

/-- A navigation intent delivered to the controller. -/
inductive NavOp where
  | next : NavOp
  | prev : NavOp
  | goTo (slideIndex : Int) : NavOp
  | reset : NavOp
deriving DecidableEq, Repr

/-- Apply one navigation intent, issued in the settled (`Idle`-observable)
state, and let the resulting transition (if any) settle.
`reset` is `resetPresentation` (app.js lines 378-381): `goToSlide(0)`. -/
def applyOpSettled (s : NavState) : NavOp → NavState
  | NavOp.next => nextSlideSettled s
  | NavOp.prev => previousSlideSettled s
  | NavOp.goTo i => (goToSlideSettled s i).1
  | NavOp.reset => (goToSlideSettled s 0).1

/-- Run a sequence of navigation intents, each issued once the previous
transition has settled. -/
def runOps (s : NavState) (ops : List NavOp) : NavState :=
  ops.foldl applyOpSettled s

/-- The sequence of indices observed at `Idle` after each intent of a
sequence. -/
def runTrace (s : NavState) : List NavOp → List Int
  | [] => []
  | op :: rest =>
    let s1 := applyOpSettled s op
    s1.currentSlide :: runTrace s1 rest

/-- A JS `number` as produced by the arithmetic in `updateProgressBar`:
finite value, `Infinity`, `-Infinity` or `NaN`. -/
inductive JSNum where
  | fin (q : ℚ) : JSNum
  | inf : JSNum
  | negInf : JSNum
  | nan : JSNum
deriving DecidableEq, Repr

/-- IEEE-754 division of two integer-valued JS numbers: division by zero
gives `NaN` for `0/0` and signed infinity otherwise. -/
def jsDiv (a b : Int) : JSNum :=
  if b = 0 then
    if a = 0 then JSNum.nan
    else if 0 < a then JSNum.inf
    else JSNum.negInf
  else JSNum.fin ((a : ℚ) / (b : ℚ))

/-- The progress fraction computed by `updateProgressBar`
(app.js line 306): `(currentSlide + 1) / totalSlides`, with no guard
against `totalSlides == 0`. -/
def progressFraction (s : NavState) : JSNum :=
  jsDiv (s.currentSlide + 1) s.totalSlides

/-- The touch-gesture state captured by the controller (fields
`touchStartX`, `touchStartY`, `touchStartTime` of the constructor,
app.js lines 9-11).  Coordinates are JS doubles, modelled as `ℚ`;
the timestamp (`Date.now()`) is an integer number of milliseconds. -/
structure TouchState where
  touchStartX : ℚ
  touchStartY : ℚ
  touchStartTime : Int
deriving DecidableEq, Repr

/-- A navigation intent produced by the gesture interpreter. -/
inductive NavIntent where
  | next : NavIntent
  | previous : NavIntent
deriving DecidableEq, Repr

/-- Model of `Math.abs` on a JS double, modelled on `ℚ`. -/
def jsAbs (q : ℚ) : ℚ :=
  if q < 0 then -q else q

/-- Embedding of `handleTouchStart` (app.js lines 137-141): record the first touch's
coordinates and the current time. -/
def handleTouchStart (clientX clientY : ℚ) (now : Int) : TouchState :=
  { touchStartX := clientX, touchStartY := clientY, touchStartTime := now }

/-- Embedding of `handleTouchEnd` (app.js lines 143-175): given the stored touch-start
state and the touch-end coordinates and time, produce the navigation
intent fired (if any) and the updated touch state.

Mirrors the source exactly: the truthiness guard
`if (!this.touchStartX || !this.touchStartY) return;` drops the event when
either stored start coordinate is 0; a slow (`deltaTime > 300`) or short
(`Math.abs(deltaX) < 50`) gesture returns early without resetting the
stored coordinates; otherwise an intent fires only when
`Math.abs(deltaX) > Math.abs(deltaY)`
(positive `deltaX` → next, negative → previous) and the stored coordinates
are reset to 0. -/
def handleTouchEnd (t : TouchState) (touchEndX touchEndY : ℚ) (touchEndTime : Int) :
    Option NavIntent × TouchState :=
  if t.touchStartX = 0 ∨ t.touchStartY = 0 then (none, t)
  else
    let deltaX := t.touchStartX - touchEndX
    let deltaY := t.touchStartY - touchEndY
    let deltaTime := touchEndTime - t.touchStartTime
    if 300 < deltaTime ∨ jsAbs deltaX < 50 then (none, t)
    else
      let intent : Option NavIntent :=
        if jsAbs deltaY < jsAbs deltaX then
          if 0 < deltaX then some NavIntent.next else some NavIntent.previous
        else none
      (intent, { t with touchStartX := 0, touchStartY := 0 })

/-- Embedding of `getSlideTitle` (app.js lines 329-339): trimmed `h1` text if present,
else trimmed `h2` text, else the fallback `"Slide {currentSlide + 1}"`
built from the controller's *current* slide index (also used when the
element is missing). -/
def getSlideTitle (currentSlide : Int) (slideElement : Option Slide) : String :=
  match slideElement with
  | none => "Slide " ++ toString (currentSlide + 1)
  | some el =>
    match el.h1 with
    | some t => t.trim
    | none =>
      match el.h2 with
      | some t => t.trim
      | none => "Slide " ++ toString (currentSlide + 1)

/-- One entry of the per-slide array built by `exportSlideData`
(app.js lines 400-404). -/
structure SlideDatum where
  number : Int
  title : String
  content : String
deriving DecidableEq, Repr

/-- The `slides.map((slide, index) => ...)` of `exportSlideData`
(app.js lines 400-404): each entry's `number` is its position + 1, its
`title` comes from `getSlideTitle` (which reads the controller's
`currentSlide`, not `index`), its `content` is the trimmed text truncated
to 200 characters with `"..."` appended. -/
def exportSlides (currentSlide : Int) (index : Int) : List Slide → List SlideDatum
  | [] => []
  | slide :: rest =>
    { number := index + 1,
      title := getSlideTitle currentSlide (some slide),
      content := (slide.textContent.trim.take 200) ++ "..." } :: exportSlides currentSlide (index + 1) rest

/-- The snapshot returned by `exportSlideData` (app.js lines 399-416). -/
structure ExportData where
  title : String
  timestamp : String
  totalSlides : Int
  currentSlide : Int
  slides : List SlideDatum
deriving DecidableEq, Repr

/-- Embedding of `exportSlideData` (app.js lines 399-416): fixed document title, the
export timestamp, the total, `currentSlide + 1`, and the per-slide data. -/
def exportSlideData (s : NavState) (slides : List Slide) (timestamp : String) : ExportData :=
  { title := "AI Language Models & GitHub Copilot Best Practices",
    timestamp := timestamp,
    totalSlides := s.totalSlides,
    currentSlide := s.currentSlide + 1,
    slides := exportSlides s.currentSlide 0 slides }

/-- A slide with no headings and no text, used for concrete scenarios. -/
def blankSlide : Slide :=
  { h1 := none, h2 := none, textContent := "" }

/-- The NavigationState invariant stated by the spec:
`0 <= currentIndex < totalSlides`. -/
def navInv (s : NavState) : Prop :=
  0 ≤ s.currentSlide ∧ s.currentSlide < s.totalSlides

/-- Closed form of the settled `goToSlide` state: unchanged on rejection,
else the target index with the transition lock released. -/
theorem goToSlideSettled_fst_eq (s : NavState) (i : Int) :
    (goToSlideSettled s i).1 =
      if goToSlideRejects s i then s
      else { currentSlide := i, totalSlides := s.totalSlides, isTransitioning := false } := by
  by_cases h : goToSlideRejects s i <;>
    simp [goToSlideSettled, goToSlideSync, goToSlideFirstTimeout, goToSlideSecondTimeout, h]

/-- A settled `goToSlide` preserves the range invariant. -/
theorem navInv_goToSlideSettled (s : NavState) (i : Int) (h : navInv s) :
    navInv (goToSlideSettled s i).1 := by
  rw [goToSlideSettled_fst_eq]
  split
  · exact h
  · rename_i hrej
    unfold goToSlideRejects at hrej
    push_neg at hrej
    exact ⟨hrej.2.1, hrej.2.2.1⟩

/-- Navigation never changes `totalSlides`. -/
theorem totalSlides_applyOpSettled (s : NavState) (op : NavOp) :
    (applyOpSettled s op).totalSlides = s.totalSlides := by
  cases op with
  | next =>
    show (nextSlideSettled s).totalSlides = s.totalSlides
    unfold nextSlideSettled
    split
    · rfl
    · rw [goToSlideSettled_fst_eq]; split <;> rfl
  | prev =>
    show (previousSlideSettled s).totalSlides = s.totalSlides
    unfold previousSlideSettled
    split
    · rfl
    · rw [goToSlideSettled_fst_eq]; split <;> rfl
  | goTo i =>
    show ((goToSlideSettled s i).1).totalSlides = s.totalSlides
    rw [goToSlideSettled_fst_eq]; split <;> rfl
  | reset =>
    show ((goToSlideSettled s 0).1).totalSlides = s.totalSlides
    rw [goToSlideSettled_fst_eq]; split <;> rfl

/-- Every settled navigation intent preserves the range invariant. -/
theorem navInv_applyOpSettled (s : NavState) (op : NavOp) (h : navInv s) :
    navInv (applyOpSettled s op) := by
  cases op with
  | next =>
    show navInv (nextSlideSettled s)
    unfold nextSlideSettled
    split
    · exact h
    · exact navInv_goToSlideSettled s _ h
  | prev =>
    show navInv (previousSlideSettled s)
    unfold previousSlideSettled
    split
    · exact h
    · exact navInv_goToSlideSettled s _ h
  | goTo i => exact navInv_goToSlideSettled s i h
  | reset => exact navInv_goToSlideSettled s 0 h

/-- Any sequence of settled navigation intents preserves the range
invariant. -/
theorem navInv_runOps (s : NavState) (ops : List NavOp) (h : navInv s) :
    navInv (runOps s ops) := by
  induction ops generalizing s with
  | nil => exact h
  | cons op rest ih =>
    show navInv (runOps (applyOpSettled s op) rest)
    exact ih _ (navInv_applyOpSettled s op h)

/-- C1 (counterexample): with zero slides, the state reached right after
initialization (the empty sequence of navigation operations) already
violates `0 <= currentIndex < totalSlides`, since `currentIndex = 0` and
`totalSlides = 0`. -/
theorem currentIndex_invariant_fails_on_zero_slides :
    ¬ (0 ≤ (runOps (initState []) []).currentSlide ∧
       (runOps (initState []) []).currentSlide <
         (runOps (initState []) []).totalSlides) := by
  decide

/-- C1 (amended): whenever the presentation has at least one slide, every
sequence of navigation operations after initialization keeps
`0 <= currentIndex < totalSlides`; in particular every accepted
`GoTo(targetIndex)` leaves `currentIndex` inside `[0, totalSlides)`. -/
theorem currentIndex_in_range_of_nonempty (slides : List Slide) (ops : List NavOp)
    (h : slides ≠ []) :
    0 ≤ (runOps (initState slides) ops).currentSlide ∧
    (runOps (initState slides) ops).currentSlide <
      (runOps (initState slides) ops).totalSlides := by
  have h0 : navInv (initState slides) := by
    have hlen : 0 < slides.length := List.length_pos.mpr h
    unfold navInv initState
    refine ⟨le_refl 0, ?_⟩
    show (0 : Int) < (slides.length : Int)
    exact_mod_cast hlen
  exact navInv_runOps _ ops h0

/-- Witness for C1 at two slides and a concrete operation sequence. -/
theorem currentIndex_in_range_of_nonempty_witness :
    ([blankSlide, blankSlide] ≠ ([] : List Slide)) ∧
    (0 ≤ (runOps (initState [blankSlide, blankSlide])
        [NavOp.goTo 1, NavOp.prev, NavOp.next]).currentSlide ∧
      (runOps (initState [blankSlide, blankSlide])
        [NavOp.goTo 1, NavOp.prev, NavOp.next]).currentSlide <
        (runOps (initState [blankSlide, blankSlide])
          [NavOp.goTo 1, NavOp.prev, NavOp.next]).totalSlides) :=
  ⟨by decide, currentIndex_in_range_of_nonempty [blankSlide, blankSlide]
    [NavOp.goTo 1, NavOp.prev, NavOp.next] (by decide)⟩

/-- C2 (counterexample): from the idle state at index 0 with 5 slides,
`goToSlide(2)` assigns `currentSlide = 2` already in its synchronous part
(app.js line 266), before any timer callback runs — the observable index
does not stay at the pre-acceptance value until the delayed step. -/
theorem goToSlide_commit_is_not_delayed :
    (goToSlideSync (NavState.mk 0 5 false) 2).currentSlide = 2 ∧
    (goToSlideSync (NavState.mk 0 5 false) 2).currentSlide ≠
      (NavState.mk 0 5 false).currentSlide := by
  decide

/-- C2 (amended): for every accepted `GoTo(targetIndex)`, the assignment
`currentIndex = targetIndex` happens synchronously at acceptance (before
the first fixed delay); the first delayed callback performs only the UI
update and leaves the navigation state unchanged, and the transitioning
flag returns to idle (false) only in the second delayed callback that
follows it. -/
theorem goToSlide_commit_synchronous (s : NavState) (i : Int)
    (h : goToSlideAccepted s i) :
    (goToSlideSync s i).currentSlide = i ∧
    (goToSlideSync s i).isTransitioning = true ∧
    (goToSlideFirstTimeout (goToSlideSync s i)).1 = goToSlideSync s i ∧
    goToSlideSecondTimeout (goToSlideFirstTimeout (goToSlideSync s i)).1 =
      { currentSlide := i, totalSlides := s.totalSlides, isTransitioning := false } := by
  unfold goToSlideAccepted at h
  simp [goToSlideSync, goToSlideFirstTimeout, goToSlideSecondTimeout, h]

/-- Witness for C2 (amended) at index 0 → 2 with 5 slides. -/
theorem goToSlide_commit_synchronous_witness :
    goToSlideAccepted (NavState.mk 0 5 false) 2 ∧
    ((goToSlideSync (NavState.mk 0 5 false) 2).currentSlide = 2 ∧
     (goToSlideSync (NavState.mk 0 5 false) 2).isTransitioning = true ∧
     (goToSlideFirstTimeout (goToSlideSync (NavState.mk 0 5 false) 2)).1 =
       goToSlideSync (NavState.mk 0 5 false) 2 ∧
     goToSlideSecondTimeout
         (goToSlideFirstTimeout (goToSlideSync (NavState.mk 0 5 false) 2)).1 =
       { currentSlide := 2, totalSlides := (NavState.mk 0 5 false).totalSlides,
         isTransitioning := false }) :=
  ⟨by decide, goToSlide_commit_synchronous (NavState.mk 0 5 false) 2 (by decide)⟩

/-- C3 (counterexample): in the initial state of an empty presentation
(`currentSlide = 0`, `totalSlides = 0`), `updateProgressBar` divides by
zero with no guard and the fraction is `Infinity`, not `0`. -/
theorem progressFraction_not_guarded :
    progressFraction (NavState.mk 0 0 false) = JSNum.inf ∧
    JSNum.inf ≠ JSNum.fin 0 := by
  decide

/-- C3 (amended): the progress fraction equals
`(currentIndex + 1) / totalSlides`, but the division is not guarded: when
`totalSlides == 0` (with the nonnegative `currentIndex` the controller
maintains) the fraction is `Infinity` rather than `0`. -/
theorem progressFraction_formula (s : NavState) (h : 0 ≤ s.currentSlide) :
    progressFraction s =
      if s.totalSlides = 0 then JSNum.inf
      else JSNum.fin (((s.currentSlide : ℚ) + 1) / (s.totalSlides : ℚ)) := by
  unfold progressFraction jsDiv
  by_cases h0 : s.totalSlides = 0
  · rw [if_pos h0, if_pos h0, if_neg (by omega : ¬ s.currentSlide + 1 = 0),
      if_pos (by omega : (0 : Int) < s.currentSlide + 1)]
  · rw [if_neg h0, if_neg h0]
    congr 1
    push_cast
    ring

/-- Witness for C3 (amended) in the empty-presentation state. -/
theorem progressFraction_formula_witness :
    (0 ≤ (NavState.mk 0 0 false).currentSlide) ∧
    progressFraction (NavState.mk 0 0 false) =
      (if (NavState.mk 0 0 false).totalSlides = 0 then JSNum.inf
       else JSNum.fin ((((NavState.mk 0 0 false).currentSlide : ℚ) + 1) /
         ((NavState.mk 0 0 false).totalSlides : ℚ))) :=
  ⟨by decide, progressFraction_formula (NavState.mk 0 0 false) (by decide)⟩

/-- C4 (confirmed): every `GoTo(targetIndex)` rejected by the guard
(transitioning, out of range, or self-transition) leaves the whole
navigation state unchanged and emits nothing — the embedding is a total
function, so no error is raised; and with `totalSlides == 0` every
navigation intent (next, previous, go-to, reset) is a no-op. -/
theorem invalid_navigation_noop (s : NavState) (i : Int) (op : NavOp) :
    (goToSlideRejects s i → goToSlideSettled s i = (s, none)) ∧
    (s.totalSlides = 0 → applyOpSettled s op = s) := by
  constructor
  · intro hrej
    unfold goToSlideSettled
    rw [if_pos hrej]
  · intro h0
    cases op with
    | next =>
      show nextSlideSettled s = s
      unfold nextSlideSettled
      split
      · rfl
      · rename_i hg
        push_neg at hg
        obtain ⟨-, hg2⟩ := hg
        rw [goToSlideSettled_fst_eq, if_pos ?_]
        unfold goToSlideRejects
        right; left
        omega
    | prev =>
      show previousSlideSettled s = s
      unfold previousSlideSettled
      split
      · rfl
      · rename_i hg
        push_neg at hg
        obtain ⟨-, hg2⟩ := hg
        rw [goToSlideSettled_fst_eq, if_pos ?_]
        unfold goToSlideRejects
        right; right; left
        omega
    | goTo j =>
      show (goToSlideSettled s j).1 = s
      rw [goToSlideSettled_fst_eq, if_pos ?_]
      unfold goToSlideRejects
      rcases lt_or_le j 0 with hj | hj
      · right; left
        exact hj
      · right; right; left
        omega
    | reset =>
      show (goToSlideSettled s 0).1 = s
      rw [goToSlideSettled_fst_eq, if_pos ?_]
      unfold goToSlideRejects
      right; right; left
      omega

/-- Witness for C4 in the empty presentation, target 3, intent next. -/
theorem invalid_navigation_noop_witness :
    goToSlideRejects (NavState.mk 0 0 false) 3 ∧
    (NavState.mk 0 0 false).totalSlides = 0 ∧
    goToSlideSettled (NavState.mk 0 0 false) 3 = (NavState.mk 0 0 false, none) ∧
    applyOpSettled (NavState.mk 0 0 false) NavOp.next = NavState.mk 0 0 false :=
  ⟨by decide, rfl,
    (invalid_navigation_noop (NavState.mk 0 0 false) 3 NavOp.next).1 (by decide),
    (invalid_navigation_noop (NavState.mk 0 0 false) 3 NavOp.next).2 rfl⟩

/-- C5 (confirmed): with 5 slides starting at index 0, the sequence
`Next(), Next(), Previous(), GoTo(4), Next()`, each operation issued at
`Idle`, yields the index sequence 1, 2, 1, 4, 4 observed at `Idle`, the
final `Next()` being a no-op at the last index. -/
theorem scenario_trace_five_slides :
    runTrace (initState (List.replicate 5 blankSlide))
      [NavOp.next, NavOp.next, NavOp.prev, NavOp.goTo 4, NavOp.next] =
      [1, 2, 1, 4, 4] ∧
    applyOpSettled
      (runOps (initState (List.replicate 5 blankSlide))
        [NavOp.next, NavOp.next, NavOp.prev, NavOp.goTo 4]) NavOp.next =
      runOps (initState (List.replicate 5 blankSlide))
        [NavOp.next, NavOp.next, NavOp.prev, NavOp.goTo 4] := by
  decide

/-- C6 (confirmed): from touch-start at (100, 65) and time 1000ms, the
gesture interpreter maps horizontal delta 80 / vertical delta 5 /
elapsed 120ms to a next intent; the same deltas with elapsed 400ms to no
intent; horizontal delta 30 (below the 50 minimum) to no intent; and
horizontal delta 20 with vertical delta 60 to no intent. -/
theorem gesture_interpreter_cases :
    (handleTouchEnd (TouchState.mk 100 65 1000) 20 60 1120).1 = some NavIntent.next ∧
    (handleTouchEnd (TouchState.mk 100 65 1000) 20 60 1400).1 = none ∧
    (handleTouchEnd (TouchState.mk 100 65 1000) 70 60 1120).1 = none ∧
    (handleTouchEnd (TouchState.mk 100 65 1000) 80 5 1120).1 = none := by
  refine ⟨?_, ?_, ?_, ?_⟩ <;> norm_num [handleTouchEnd, jsAbs]

/-- C7 (confirmed): once an accepted transition settles, the counter text
written by the UI update equals `"{currentIndex+1} / {totalSlides}"` for
the settled values of `currentIndex` and `totalSlides`. -/
theorem counter_text_after_settle (s : NavState) (i : Int)
    (h : goToSlideAccepted s i) :
    (goToSlideSettled s i).2 =
      some (toString ((goToSlideSettled s i).1.currentSlide + 1) ++ " / " ++
        toString (goToSlideSettled s i).1.totalSlides) := by
  unfold goToSlideAccepted at h
  simp [goToSlideSettled, goToSlideSync, goToSlideFirstTimeout,
    goToSlideSecondTimeout, counterText, h]

/-- Witness for C7 at index 0 → 2 with 5 slides. -/
theorem counter_text_after_settle_witness :
    goToSlideAccepted (NavState.mk 0 5 false) 2 ∧
    (goToSlideSettled (NavState.mk 0 5 false) 2).2 =
      some (toString ((goToSlideSettled (NavState.mk 0 5 false) 2).1.currentSlide + 1) ++
        " / " ++ toString (goToSlideSettled (NavState.mk 0 5 false) 2).1.totalSlides) :=
  ⟨by decide, counter_text_after_settle (NavState.mk 0 5 false) 2 (by decide)⟩

/-- C8 (confirmed): for a fixed positive `totalSlides`, the progress
fraction is `(currentIndex + 1) / totalSlides`, it is monotonic
non-decreasing as `currentIndex` increases, and it equals 1 exactly when
`currentIndex == totalSlides - 1`. -/
theorem progress_monotone_and_one_iff_last (s t : NavState)
    (htot : t.totalSlides = s.totalSlides) (hpos : 0 < s.totalSlides)
    (hle : s.currentSlide ≤ t.currentSlide) :
    progressFraction s = JSNum.fin (((s.currentSlide : ℚ) + 1) / (s.totalSlides : ℚ)) ∧
    ((s.currentSlide : ℚ) + 1) / (s.totalSlides : ℚ) ≤
      ((t.currentSlide : ℚ) + 1) / (t.totalSlides : ℚ) ∧
    (progressFraction s = JSNum.fin 1 ↔ s.currentSlide = s.totalSlides - 1) := by
  have hne : s.totalSlides ≠ 0 := by omega
  have hQpos : (0 : ℚ) < (s.totalSlides : ℚ) := by exact_mod_cast hpos
  have hform : progressFraction s =
      JSNum.fin (((s.currentSlide : ℚ) + 1) / (s.totalSlides : ℚ)) := by
    unfold progressFraction jsDiv
    rw [if_neg hne]
    congr 1
    push_cast
    ring
  refine ⟨hform, ?_, ?_⟩
  · rw [htot]
    have hleQ : ((s.currentSlide : ℚ) + 1) ≤ ((t.currentSlide : ℚ) + 1) := by
      have hc : (s.currentSlide : ℚ) ≤ (t.currentSlide : ℚ) := by exact_mod_cast hle
      linarith
    exact (div_le_div_iff_of_pos_right hQpos).mpr hleQ
  · rw [hform]
    constructor
    · intro hfin
      have hq : ((s.currentSlide : ℚ) + 1) / (s.totalSlides : ℚ) = 1 := by
        simpa using hfin
      rw [div_eq_one_iff_eq (by exact_mod_cast hne)] at hq
      have hint : s.currentSlide + 1 = s.totalSlides := by exact_mod_cast hq
      omega
    · intro hlast
      have hint : s.currentSlide + 1 = s.totalSlides := by omega
      have hq : ((s.currentSlide : ℚ) + 1) = (s.totalSlides : ℚ) := by exact_mod_cast hint
      rw [hq, div_self (by exact_mod_cast hne)]

/-- Witness for C8 at indices 3 and 4 of a 5-slide presentation. -/
theorem progress_monotone_and_one_iff_last_witness :
    ((NavState.mk 4 5 false).totalSlides = (NavState.mk 3 5 false).totalSlides) ∧
    (0 < (NavState.mk 3 5 false).totalSlides) ∧
    ((NavState.mk 3 5 false).currentSlide ≤ (NavState.mk 4 5 false).currentSlide) ∧
    (progressFraction (NavState.mk 3 5 false) =
        JSNum.fin ((((NavState.mk 3 5 false).currentSlide : ℚ) + 1) /
          ((NavState.mk 3 5 false).totalSlides : ℚ)) ∧
      (((NavState.mk 3 5 false).currentSlide : ℚ) + 1) /
          ((NavState.mk 3 5 false).totalSlides : ℚ) ≤
        (((NavState.mk 4 5 false).currentSlide : ℚ) + 1) /
          ((NavState.mk 4 5 false).totalSlides : ℚ) ∧
      (progressFraction (NavState.mk 3 5 false) = JSNum.fin 1 ↔
        (NavState.mk 3 5 false).currentSlide = (NavState.mk 3 5 false).totalSlides - 1)) :=
  ⟨rfl, by decide, by decide,
    progress_monotone_and_one_iff_last (NavState.mk 3 5 false) (NavState.mk 4 5 false)
      rfl (by decide) (by decide)⟩

/-- Helper for C9: every heading-less slide in the per-slide export array
receives the title `"Slide {cur + 1}"` built from the controller's current
index `cur`, regardless of its own position `i` or the starting map index
`idx`. -/
theorem exportSlides_title_of_no_heading (cur idx : Int) (slides : List Slide)
    (i : Nat) (sl : Slide)
    (hget : slides[i]? = some sl) (h1 : sl.h1 = none) (h2 : sl.h2 = none) :
    ((exportSlides cur idx slides)[i]?).map SlideDatum.title =
      some ("Slide " ++ toString (cur + 1)) := by
  induction slides generalizing i idx with
  | nil => simp at hget
  | cons a l ih =>
    cases i with
    | zero =>
      simp at hget
      subst hget
      simp [exportSlides, getSlideTitle, h1, h2]
    | succ n =>
      simp at hget
      simpa [exportSlides] using ih (idx + 1) n hget

/-- C9 (confirmed): in `ExportSlideData`, every slide with no `h1` or `h2`
heading receives the fallback title `"Slide {currentIndex + 1}"` computed
from the navigator's current slide index — not from that slide's own
position — so all heading-less slides in the export carry this same
fallback title. -/
theorem export_fallback_title_uses_current_index (s : NavState) (slides : List Slide)
    (ts : String) (i : Nat) (sl : Slide)
    (hget : slides[i]? = some sl) (h1 : sl.h1 = none) (h2 : sl.h2 = none) :
    (((exportSlideData s slides ts).slides)[i]?).map SlideDatum.title =
      some ("Slide " ++ toString (s.currentSlide + 1)) :=
  exportSlides_title_of_no_heading s.currentSlide 0 slides i sl hget h1 h2

/-- Witness for C9: in a 3-slide deck whose third slide has no headings,
with the navigator on index 1, the exported title of slide 3 is
`"Slide 2"` (from `currentSlide + 1`), not `"Slide 3"`. -/
theorem export_fallback_title_witness :
    ([blankSlide, Slide.mk (some "T") none "x", blankSlide][2]? = some blankSlide) ∧
    blankSlide.h1 = none ∧ blankSlide.h2 = none ∧
    (((exportSlideData (NavState.mk 1 3 false)
        [blankSlide, Slide.mk (some "T") none "x", blankSlide] "ts").slides)[2]?).map
      SlideDatum.title =
      some ("Slide " ++ toString ((NavState.mk 1 3 false).currentSlide + 1)) :=
  ⟨rfl, rfl, rfl,
    export_fallback_title_uses_current_index (NavState.mk 1 3 false)
      [blankSlide, Slide.mk (some "T") none "x", blankSlide] "ts" 2 blankSlide rfl rfl rfl⟩

/-- C10 (confirmed): whenever the recorded touch-start X or Y coordinate
is 0 (as after the reset performed by a previous touch-end), the touch
handler produces no navigation intent and leaves the touch state
unchanged, whatever the touch-end coordinates and time are — even for a
fast, long, horizontally dominant gesture. -/
theorem touch_zero_start_produces_no_intent (t : TouchState) (endX endY : ℚ)
    (endTime : Int) (h : t.touchStartX = 0 ∨ t.touchStartY = 0) :
    handleTouchEnd t endX endY endTime = (none, t) := by
  unfold handleTouchEnd
  rw [if_pos h]

/-- Witness for C10: touch-start X recorded as 0, then a 80-pixel
rightward flick in 120ms (which passes every swipe predicate) still
produces no intent. -/
theorem touch_zero_start_witness :
    ((TouchState.mk 0 65 1000).touchStartX = 0 ∨
      (TouchState.mk 0 65 1000).touchStartY = 0) ∧
    handleTouchEnd (TouchState.mk 0 65 1000) (-80) 60 1120 =
      (none, TouchState.mk 0 65 1000) :=
  ⟨Or.inl rfl,
    touch_zero_start_produces_no_intent (TouchState.mk 0 65 1000) (-80) 60 1120
      (Or.inl rfl)⟩
